import Mathlib

/-!
Shallow embedding of the face-spoofing-detector browser client.

The repository contains three successive rewrites of the same client:
* `Common`   — the first script in `src/common.js` (pingModel, autoDetect, the
  unbounded `appendRecent`, the unguarded snap handler);
* `AppFixed` — the second script in `src/common.js` (`app-fixed.js`: status
  check, error-field check, dual key names, escaping, bounded recent list);
* `AppJs`    — `src/unnamed/part_000` (`app.js`: status check and bounded
  recent list, but single key names, no error-field check, no escaping of the
  interpolated label).

JavaScript numbers are modelled as rationals (ℚ), integers where the source
only ever holds integers. A JSON field that may be absent (`undefined`) is an
`Option`. An HTTP response carries both its raw body text and, when the body
is valid JSON, its parsed form; a rejected fetch is `none`.
-/

/-- JS `Math.round`: round half toward positive infinity. -/
def jsRound (q : ℚ) : ℤ := ⌊q + 1/2⌋

/-- JS `a || d` for a possibly-absent string `a`: the empty string is falsy. -/
def jsOrStr (o : Option String) (d : String) : String :=
  match o with
  | some s => if s = "" then d else s
  | none => d

/-- JS `a || d` for a possibly-absent number `a`: `0` is falsy. -/
def jsOrNum (o : Option ℚ) (d : ℚ) : ℚ :=
  match o with
  | some x => if x = 0 then d else x
  | none => d

/-- JS string interpolation of a possibly-absent boolean (`undefined` prints
as the word `undefined`). -/
def jsShowBool (o : Option Bool) : String :=
  match o with
  | some true => "true"
  | some false => "false"
  | none => "undefined"

/-- JS string interpolation of a possibly-absent integer. -/
def jsShowInt (o : Option ℤ) : String :=
  match o with
  | some t => toString t
  | none => "undefined"

/-- JS `.toUpperCase()` (the sources only ever uppercase ASCII labels). -/
def toUpperCase (s : String) : String := ⟨s.data.map Char.toUpper⟩

/-- JS `(x).toFixed(1)` for a nonnegative number: nearest multiple of 1/10,
ties away from zero, printed with one digit after the point. -/
def toFixed1 (q : ℚ) : String :=
  let n : ℤ := ⌊q * 10 + 1/2⌋
  toString (n / 10) ++ "." ++ toString (n % 10)

/-- One character of `escapeHtml`: the replacement table
`\x7b'&':'&amp;','<':'&lt;','>':'&gt;','"':'&quot;',"'":'&#39;'\x7d`
applied by `String(s).replace(/[&<>"']/g, ...)`. -/
def escapeChar (c : Char) : List Char :=
  if c = '&' then "&amp;".data
  else if c = '<' then "&lt;".data
  else if c = '>' then "&gt;".data
  else if c = Char.ofNat 34 then "&quot;".data
  else if c = Char.ofNat 39 then "&#39;".data
  else [c]

/-- Character-list version of `escapeHtml`. -/
def escList : List Char → List Char
  | [] => []
  | c :: cs => escapeChar c ++ escList cs

/-- `escapeHtml` from `app.js` / `app-fixed.js`: replace every `&<>"'` by its
HTML entity. -/
def escapeHtml (s : String) : String := ⟨escList s.data⟩

/-- Fuel-indexed unfolding of the DOM loop
`while (recentList.children.length > 10) recentList.removeChild(recentList.lastChild)`.
Each iteration removes the last child, so `fuel = initial length` always
suffices. -/
def evictLoop {α : Type} : Nat → List α → List α
  | 0, l => l
  | fuel + 1, l => if l.length > 10 then evictLoop fuel l.dropLast else l

/-- The `while (... > 10) removeChild(lastChild)` loop of `app.js` and
`app-fixed.js`, run to completion. -/
def trimTo10 {α : Type} (l : List α) : List α := evictLoop l.length l

/-- A successful-response JSON body. Each field the client ever reads is
optional; `none` is JS `undefined`. -/
structure DetectJson where
  prediction : Option String := none
  label : Option String := none
  confidence : Option ℚ := none
  processing_time_ms : Option ℤ := none
  processing_time : Option ℤ := none
  error : Option String := none
  attack_type : Option String := none
  timestamp : Option String := none
  image_path : Option String := none
deriving DecidableEq, Repr

/-- A resolved HTTP response: `ok`/`status` from the fetch, `text` the raw
body (what `resp.text()` yields), `json` its parse (`none` when `resp.json()`
would throw because the body is not valid JSON). -/
structure HttpResp where
  ok : Bool
  status : Nat
  text : String
  json : Option DetectJson := none
deriving DecidableEq, Repr

/-- What one run of a detection handler did to the page: the HTML put into
the result box, whether `resp.json()` was ever invoked, and the entry handed
to `appendRecent` (`none` when `appendRecent` was not reached). -/
structure Outcome (ε : Type) where
  resultHtml : String
  attemptedJsonParse : Bool
  appended : Option ε
deriving DecidableEq, Repr

/-- The page state the camera handlers touch. The stream handle is abstract. -/
structure UIState where
  srcObject : Option Nat
  startDisabled : Bool
  resultText : String
deriving DecidableEq, Repr

/-- What a snap-button click did besides updating the state. -/
structure SnapEffect where
  captured : Bool
  requestSent : Bool
deriving DecidableEq, Repr

/-- The `/api/ping` JSON body. -/
structure PingJson where
  model_name : Option String := none
  model_loaded : Option Bool := none
deriving DecidableEq, Repr

/-- A network request the client can issue. -/
inductive Req : Type
  | ping : Req
  | logs : Nat → Req
  | detect : Req
deriving DecidableEq, Repr

/-- One entry of the on-page recent list: a thumbnail plus an info div,
identified by the HTML they carry. -/
structure RecentDiv where
  imgSrc : String
  infoHtml : String
deriving DecidableEq, Repr

/-- JS string interpolation of a possibly-absent string. -/
def jsShowStr (o : Option String) : String :=
  match o with
  | some s => s
  | none => "undefined"

/-- JS `${Math.round(x * 100)}` where `x` may be `undefined`
(`undefined * 100` is `NaN` and prints as `NaN`). -/
def roundPercent (c : Option ℚ) : String :=
  match c with
  | some q => toString (jsRound (q * 100))
  | none => "NaN"

/-- JS truthiness of a possibly-absent string (`undefined` and `""` falsy). -/
def truthyStr : Option String → Bool
  | some s => if s = "" then false else true
  | none => false

namespace Common

/-- `pingModel` of the first `common.js` script: on a parsed response set
`modelStatus` to the interpolation of `model_name || 'none'` and
`model_loaded`; on any failure (rejected fetch or unparsable body) set it to
the fixed string. Returns the displayed text. -/
def pingModel (r : Option PingJson) : String :=
  match r with
  | none => "backend unreachable"
  | some j => jsOrStr j.model_name "none" ++ " (loaded=" ++ jsShowBool j.model_loaded ++ ")"

/-- The network requests the top level of the first `common.js` script issues
at load: `pingModel()` once, then the logs prefetch. The argument records that
the list does not depend on how the ping turns out. -/
def loadRequests (_pingOutcome : Option PingJson) : List Req :=
  [Req.ping, Req.logs 10]

/-- `startBtn.onclick` of the first `common.js` script: on a granted stream,
bind it and disable the button; on a thrown denial, the catch shows one alert
and touches nothing. Returns the new state and the number of alerts shown. -/
def startCamera (grant : Option Nat) (st : UIState) : UIState × Nat :=
  match grant with
  | some s => ({ st with srcObject := some s, startDisabled := true }, 0)
  | none => (st, 1)

/-- `snapBtn.onclick` of the first `common.js` script: no stream guard — it
always draws the (possibly blank) frame, sets `Analyzing...` and posts to the
backend. -/
def snapClick (st : UIState) : UIState × SnapEffect :=
  ({ st with resultText := "Analyzing..." }, ⟨true, true⟩)

/-- The success template of `autoDetect` (its `resultBox.innerHTML`
assignment), for a response whose `prediction` is present. -/
def renderHtml (p : String) (data : DetectJson) : String :=
  "\n      <div><strong>Result:</strong> " ++ toUpperCase p ++ " (" ++ jsShowStr data.attack_type
    ++ ")</div>\n      <div><strong>Confidence:</strong> " ++ roundPercent data.confidence
    ++ "%</div>\n      <div><strong>Time:</strong> " ++ jsShowInt data.processing_time_ms ++ " ms</div>"

/-- `autoDetect` of the first `common.js` script. It never looks at the HTTP
status: `resp.json()` is always attempted. A body that is not JSON, or a JSON
body with no `prediction` (so `data.prediction.toUpperCase()` throws), lands
in the catch, which writes the generic failure text. -/
def autoDetect (resp : Option HttpResp) : Outcome DetectJson :=
  match resp with
  | none => ⟨"Detection failed. Is backend running?", false, none⟩
  | some r =>
    match r.json with
    | none => ⟨"Detection failed. Is backend running?", true, none⟩
    | some data =>
      match data.prediction with
      | none => ⟨"Detection failed. Is backend running?", true, none⟩
      | some p => ⟨renderHtml p data, true, some data⟩

/-- The info div built by `appendRecent` of the first `common.js` script —
no escaping anywhere. -/
def recentInfoHtml (p : String) (item : DetectJson) : String :=
  "\n    <div style=\"font-weight:700\">" ++ toUpperCase p ++ " • " ++ jsShowStr item.attack_type
    ++ "</div>\n    <div style=\"color:#777;font-size:12px\">" ++ jsShowStr item.timestamp
    ++ "</div>\n    <div style=\"font-size:12px;color:#777\">conf " ++ roundPercent item.confidence
    ++ "% • " ++ jsShowInt item.processing_time_ms ++ " ms</div>"

/-- `appendRecent` of the first `common.js` script: build the div and
`prepend` it — there is no eviction loop. `none` models the TypeError thrown
by `item.prediction.toUpperCase()` when `prediction` is absent. -/
def appendRecent (recentList : List RecentDiv) (item : DetectJson) (previewSrc : String) :
    Option (List RecentDiv) :=
  match item.prediction with
  | none => none
  | some p =>
    let imgSrc :=
      match item.image_path with
      | some q =>
        if q = "" then previewSrc
        else "http://127.0.0.1:5000/uploads/" ++ (q.splitOn "/").getLastD ""
      | none => previewSrc
    some (⟨imgSrc, recentInfoHtml p item⟩ :: recentList)

/-- Iterate `appendRecent` over a list of items, propagating a throw. -/
def appendMany (items : List DetectJson) (previewSrc : String) (start : List RecentDiv) :
    Option (List RecentDiv) :=
  items.foldl (fun acc it => acc.bind (fun l => appendRecent l it previewSrc)) (some start)

end Common

namespace AppJs

/-- `startBtn.onclick` of `app.js` (`src/unnamed/part_000`): grant → bind
stream, disable the button, write `Camera started.`; denial → the catch shows
one alert and leaves the state alone. Returns state and alert count. -/
def startCamera (grant : Option Nat) (st : UIState) : UIState × Nat :=
  match grant with
  | some s => ({ st with srcObject := some s, startDisabled := true,
                         resultText := "Camera started." }, 0)
  | none => (st, 1)

/-- `snapBtn.onclick` of `app.js`: guarded — with no `video.srcObject` it
writes the fixed message and returns without capturing or posting. -/
def snapClick (st : UIState) : UIState × SnapEffect :=
  match st.srcObject with
  | none => ({ st with resultText := "Start the camera first." }, ⟨false, false⟩)
  | some _ => ({ st with resultText := "Analyzing..." }, ⟨true, true⟩)

/-- `const label = (result.prediction || "unknown").toUpperCase()` of
`app.js` — only the `prediction` key is consulted. -/
def label (result : DetectJson) : String := toUpperCase (jsOrStr result.prediction "unknown")

/-- `const conf = Math.round((result.confidence || 0) * 100)` of `app.js`. -/
def conf (result : DetectJson) : ℤ := jsRound (jsOrNum result.confidence 0 * 100)

/-- `const time = result.processing_time_ms ?? "N/A"` of `app.js` — only the
`processing_time_ms` key is consulted. -/
def time (result : DetectJson) : String :=
  match result.processing_time_ms with
  | some t => toString t
  | none => "N/A"

/-- The success template assigned to `resultBox.innerHTML` in `app.js` —
nothing is escaped. -/
def resultHtml (lbl : String) (cf : ℤ) (tm : String) : String :=
  "\n      <div><b>Prediction:</b> " ++ lbl ++ "</div>\n      <div><b>Confidence:</b> "
    ++ toString cf ++ "%</div>\n      <div><b>Time:</b> " ++ tm ++ " ms</div>\n    "

/-- The non-2xx template of `app.js`: the body text is escaped into a pre. -/
def serverErrorHtml (text : String) : String :=
  "<span style=\"color:red\">Server error:</span><pre>" ++ escapeHtml text ++ "</pre>"

/-- `sendToBackend` of `app.js`. Non-ok responses surface the body text
without a JSON parse; an unparsable ok body lands in the catch; otherwise
render and hand `(label, conf, previewImg.src)` to `appendRecent`. There is
no check of any `error` field. -/
def sendToBackend (previewSrc : String) (resp : Option HttpResp) :
    Outcome (String × ℤ × String) :=
  match resp with
  | none => ⟨"Network error. Backend unreachable.", false, none⟩
  | some r =>
    if r.ok = false then ⟨serverErrorHtml r.text, false, none⟩
    else
      match r.json with
      | none => ⟨"Network error. Backend unreachable.", true, none⟩
      | some result =>
        ⟨resultHtml (label result) (conf result) (time result), true,
          some (label result, conf result, previewSrc)⟩

/-- The div `appendRecent` of `app.js` builds via `d.innerHTML` — `label`,
`conf` and `imgSrc` are interpolated with no escaping. -/
def recentDivHtml (lbl : String) (cf : ℤ) (imgSrc : String) : String :=
  "\n    <img src=\"" ++ imgSrc ++ "\" width=\"80\" style=\"border-radius:6px\"/>\n    <div>\n      <div><b>"
    ++ lbl ++ "</b></div>\n      <div style=\"font-size:12px\">" ++ toString cf
    ++ "%</div>\n    </div>\n  "

/-- `appendRecent` of `app.js`: prepend the new div, then the
`while (length > 10) removeChild(lastChild)` eviction loop. -/
def appendRecent (recentList : List String) (lbl : String) (cf : ℤ) (imgSrc : String) :
    List String :=
  trimTo10 (recentDivHtml lbl cf imgSrc :: recentList)

end AppJs

namespace AppFixed

/-- An item handed to `appendRecent` by `app-fixed.js` (second script of
`src/common.js`): label, numeric confidence (0 when non-numeric), and
`new Date().toLocaleString()`. -/
structure RecentItem where
  label : String
  confidence : ℚ
  timestamp : String
deriving DecidableEq, Repr

/-- The non-2xx template of `app-fixed.js`: status interpolated, body text
escaped into a wrapping pre. -/
def serverErrorHtml (status : Nat) (text : String) : String :=
  "<span style=\"color:red\">Server error " ++ toString status
    ++ ":</span><pre style=\"white-space:pre-wrap\">" ++ escapeHtml text ++ "</pre>"

/-- The `result.error` template of `app-fixed.js`. -/
def errorSpanHtml (e : String) : String :=
  "<span style=\"color:red\">" ++ escapeHtml e ++ "</span>"

/-- `const label = (result.prediction || result.label || "unknown").toString()`
of `app-fixed.js`. -/
def label (result : DetectJson) : String :=
  jsOrStr result.prediction (jsOrStr result.label "unknown")

/-- `const confidence = (typeof result.confidence === "number") ?
(result.confidence * 100).toFixed(1) + "%" : (result.confidence || "N/A")`
of `app-fixed.js`. -/
def confidence (result : DetectJson) : String :=
  match result.confidence with
  | some c => toFixed1 (c * 100) ++ "%"
  | none => "N/A"

/-- `const timeMs = result.processing_time_ms ?? result.processing_time ??
"N/A"` of `app-fixed.js`. -/
def timeMs (result : DetectJson) : String :=
  match result.processing_time_ms with
  | some t => toString t
  | none =>
    match result.processing_time with
    | some t => toString t
    | none => "N/A"

/-- The success template of `app-fixed.js` — every interpolation is wrapped
in `escapeHtml`. -/
def resultHtml (lbl cf tm : String) : String :=
  "\n      <div><strong>Prediction:</strong> " ++ escapeHtml (toUpperCase lbl)
    ++ "</div>\n      <div><strong>Confidence:</strong> " ++ escapeHtml cf
    ++ "</div>\n      <div><strong>Processing time:</strong> " ++ escapeHtml tm
    ++ " ms</div>\n    "

/-- `sendToBackend` of `app-fixed.js`: non-ok → escaped body text, no JSON
parse; unparsable ok body → catch; truthy `result.error` → escaped error
span, no append; otherwise render and append. `now` stands for
`new Date().toLocaleString()`. -/
def sendToBackend (now previewSrc : String) (resp : Option HttpResp) :
    Outcome (RecentItem × String) :=
  match resp with
  | none => ⟨"Detection failed. Is backend running? See console for details.", false, none⟩
  | some r =>
    if r.ok = false then ⟨serverErrorHtml r.status r.text, false, none⟩
    else
      match r.json with
      | none => ⟨"Detection failed. Is backend running? See console for details.", true, none⟩
      | some result =>
        if truthyStr result.error then
          ⟨errorSpanHtml (jsShowStr result.error), true, none⟩
        else
          ⟨resultHtml (label result) (confidence result) (timeMs result), true,
            some (⟨label result, result.confidence.getD 0, now⟩, previewSrc)⟩

/-- The info div `appendRecent` of `app-fixed.js` builds — label and
timestamp escaped, confidence printed with `toFixed(1)`. -/
def infoHtml (item : RecentItem) : String :=
  "\n    <div style=\"font-weight:700\">" ++ escapeHtml (toUpperCase item.label)
    ++ "</div>\n    <div style=\"font-size:12px;color:#777\">" ++ escapeHtml item.timestamp
    ++ "</div>\n    <div style=\"font-size:12px;color:#777\">conf "
    ++ toFixed1 (item.confidence * 100) ++ "%</div>\n  "

/-- `appendRecent` of `app-fixed.js`: prepend the new div, then the
`while (length > 10) removeChild(lastChild)` eviction loop. -/
def appendRecent (recentList : List RecentDiv) (item : RecentItem) (imgSrc : String) :
    List RecentDiv :=
  trimTo10 (⟨imgSrc, infoHtml item⟩ :: recentList)

end AppFixed

/-- Occurrences of a character in a string. -/
def countChar (c : Char) (s : String) : Nat := s.data.count c

theorem countChar_append (c : Char) (a b : String) :
    countChar c (a ++ b) = countChar c a + countChar c b := by
  simp [countChar, String.data_append, List.count_append]

theorem evictLoop_eq_take {α : Type} (n : Nat) (l : List α) (h : l.length - 10 ≤ n) :
    evictLoop n l = l.take 10 := by
  induction n generalizing l with
  | zero =>
    have hl : l.length ≤ 10 := by omega
    simp [evictLoop, List.take_of_length_le hl]
  | succ n ih =>
    by_cases hl : l.length > 10
    · have hdrop : l.dropLast.length - 10 ≤ n := by
        rw [List.length_dropLast]; omega
      have : evictLoop (n + 1) l = evictLoop n l.dropLast := by
        simp [evictLoop, hl]
      rw [this, ih l.dropLast hdrop, List.dropLast_eq_take, List.take_take]
      congr 1
      omega
    · simp [evictLoop, hl, List.take_of_length_le (by omega : l.length ≤ 10)]

theorem trimTo10_eq_take {α : Type} (l : List α) : trimTo10 l = l.take 10 :=
  evictLoop_eq_take l.length l (by omega)

theorem trimTo10_length_le {α : Type} (l : List α) : (trimTo10 l).length ≤ 10 := by
  rw [trimTo10_eq_take, List.length_take]
  omega

theorem trimTo10_cons_head {α : Type} (e : α) (l : List α) :
    (trimTo10 (e :: l)).head? = some e := by
  rw [trimTo10_eq_take, show (10 : ℕ) = 9 + 1 from rfl, List.take_succ_cons]
  rfl

theorem trimTo10_evict {α : Type} (e : α) (l : List α) (h : l.length = 10) :
    trimTo10 (e :: l) = e :: l.dropLast := by
  rw [trimTo10_eq_take, show (10 : ℕ) = 9 + 1 from rfl, List.take_succ_cons,
    List.dropLast_eq_take, h]

theorem count_lt_escapeChar (c : Char) : (escapeChar c).count '<' = 0 := by
  unfold escapeChar
  split_ifs with h1 h2 h3 h4 h5
  · decide
  · decide
  · decide
  · decide
  · decide
  · simp [List.count_singleton, h2]

theorem count_lt_escList (l : List Char) : (escList l).count '<' = 0 := by
  induction l with
  | nil => rfl
  | cons c cs ih => simp [escList, List.count_append, count_lt_escapeChar, ih]

/-- `escapeHtml` output never contains a raw markup-opening character. -/
theorem countChar_lt_escapeHtml (s : String) : countChar '<' (escapeHtml s) = 0 := by
  simpa [countChar, escapeHtml] using count_lt_escList s.data

theorem foldl_appendRecent_length (items : List (String × ℤ × String))
    (acc : List String) (hacc : acc.length ≤ 10) :
    (items.foldl (fun l e => AppJs.appendRecent l e.1 e.2.1 e.2.2) acc).length ≤ 10 := by
  induction items generalizing acc with
  | nil => simpa using hacc
  | cons e es ih => exact ih _ (trimTo10_length_le _)

/-- C1 (counterexample): `appendRecent` of the first `common.js` script has
no eviction loop, so eleven insertions starting from the empty recent list
leave eleven entries — the list exceeds 10. -/
theorem c1_counterexample :
    (Common.appendMany (List.replicate 11 { prediction := some "real" }) "p" []).map
      List.length = some 11 := by
  decide

/-- C1 (amended): in `app.js` and `app-fixed.js`, every `appendRecent` puts
the new div at index 0, the result of any insertion sequence never exceeds 10
entries, and an insertion into a full (length-10) list drops exactly the last
(oldest) entry. -/
theorem c1_recent_bounded :
    (∀ items : List (String × ℤ × String),
      (items.foldl (fun l e => AppJs.appendRecent l e.1 e.2.1 e.2.2) []).length ≤ 10)
    ∧ (∀ (l : List String) lbl cf src,
        (AppJs.appendRecent l lbl cf src).head? = some (AppJs.recentDivHtml lbl cf src))
    ∧ (∀ (l : List String) lbl cf src, l.length = 10 →
        AppJs.appendRecent l lbl cf src = AppJs.recentDivHtml lbl cf src :: l.dropLast)
    ∧ (∀ (l : List RecentDiv) item src, (AppFixed.appendRecent l item src).length ≤ 10
        ∧ (AppFixed.appendRecent l item src).head? = some ⟨src, AppFixed.infoHtml item⟩) := by
  refine ⟨fun items => foldl_appendRecent_length items [] (by simp), ?_, ?_, ?_⟩
  · exact fun l lbl cf src => trimTo10_cons_head _ _
  · exact fun l lbl cf src h => trimTo10_evict _ _ h
  · exact fun l item src => ⟨trimTo10_length_le _, trimTo10_cons_head _ _⟩

/-- C1 (witness): inserting into a concrete full list evicts its last div. -/
theorem c1_witness :
    AppJs.appendRecent (List.replicate 10 "d") "L" 5 "u"
      = AppJs.recentDivHtml "L" 5 "u" :: (List.replicate 10 "d").dropLast :=
  c1_recent_bounded.2.2.1 (List.replicate 10 "d") "L" 5 "u" (by decide)

/-- C2 (counterexample): `app-fixed.js` displays `(confidence*100).toFixed(1)`
percent, not `round(confidence*100)` percent: for confidence 0.873 it renders
"87.3%" while the rounded display is "87%"; and `app.js` displays 150% for the
numeric confidence 1.5, outside [0,100]. -/
theorem c2_counterexample :
    AppFixed.confidence { confidence := some (873/1000) } = "87.3%"
    ∧ toString (jsRound ((873/1000 : ℚ) * 100)) ++ "%" = "87%"
    ∧ ("87.3%" : String) ≠ "87%"
    ∧ AppJs.conf { confidence := some (3/2) } = 150 := by
  have h1 : ⌊(873/1000 : ℚ) * 100 * 10 + 1/2⌋ = (873 : ℤ) := by
    norm_num [Int.floor_eq_iff]
  have h2 : jsRound ((873/1000 : ℚ) * 100) = 87 := by
    unfold jsRound
    norm_num [Int.floor_eq_iff]
  refine ⟨?_, ?_, by decide, ?_⟩
  · simp only [AppFixed.confidence, toFixed1, h1]
    decide
  · rw [h2]
    decide
  · simp only [AppJs.conf, jsOrNum]
    norm_num [jsRound, Int.floor_eq_iff]

/-- C2 (amended): in `app.js` and the first `common.js` script the displayed
confidence is `Math.round(confidence*100)` percent, and for confidence in
[0,1] that value lies in [0,100]; `app-fixed.js` instead shows one decimal
place (see the counterexample). -/
theorem c2_confidence_round (c : ℚ) (h0 : 0 ≤ c) (h1 : c ≤ 1) :
    AppJs.conf { confidence := some c } = jsRound (c * 100)
    ∧ roundPercent (some c) = toString (jsRound (c * 100))
    ∧ 0 ≤ jsRound (c * 100) ∧ jsRound (c * 100) ≤ 100 := by
  refine ⟨?_, rfl, ?_, ?_⟩
  · by_cases hc : c = 0
    · simp [AppJs.conf, jsOrNum, hc]
    · simp [AppJs.conf, jsOrNum, hc]
  · exact Int.le_floor.mpr (by push_cast; nlinarith)
  · have hle : c * 100 + 1/2 ≤ (201/2 : ℚ) := by nlinarith
    have := Int.floor_le_floor hle
    have h201 : ⌊(201/2 : ℚ)⌋ = 100 := by norm_num [Int.floor_eq_iff]
    unfold jsRound
    omega

/-- C2 (witness): the rounded display at confidence 0.873 is in range. -/
theorem c2_witness :
    AppJs.conf { confidence := some (873/1000 : ℚ) } = jsRound ((873/1000 : ℚ) * 100)
    ∧ roundPercent (some (873/1000 : ℚ)) = toString (jsRound ((873/1000 : ℚ) * 100))
    ∧ 0 ≤ jsRound ((873/1000 : ℚ) * 100) ∧ jsRound ((873/1000 : ℚ) * 100) ≤ 100 :=
  c2_confidence_round (873/1000) (by norm_num) (by norm_num)

/-- C3 (counterexample): `autoDetect` of the first `common.js` script ignores
the HTTP status. On a non-2xx response with body "Internal Server Error" it
still calls `resp.json()`; the parse throws and the result box shows the
generic failure text, not the escaped body. -/
theorem c3_counterexample :
    (Common.autoDetect (some { ok := false, status := 500, text := "Internal Server Error" })).attemptedJsonParse = true
    ∧ (Common.autoDetect (some { ok := false, status := 500, text := "Internal Server Error" })).resultHtml
        = "Detection failed. Is backend running?" :=
  ⟨rfl, rfl⟩

/-- C3 (amended): in `app.js` and `app-fixed.js` a non-2xx response is read
as text and surfaced HTML-escaped without any JSON parse and without touching
the recent list; the first `common.js` script instead always JSON-parses (see
the counterexample). -/
theorem c3_non2xx_text (r : HttpResp) (h : r.ok = false) (now src : String) :
    (AppJs.sendToBackend src (some r)).resultHtml = AppJs.serverErrorHtml r.text
    ∧ (AppJs.sendToBackend src (some r)).attemptedJsonParse = false
    ∧ (AppJs.sendToBackend src (some r)).appended = none
    ∧ (AppFixed.sendToBackend now src (some r)).resultHtml
        = AppFixed.serverErrorHtml r.status r.text
    ∧ (AppFixed.sendToBackend now src (some r)).attemptedJsonParse = false
    ∧ (AppFixed.sendToBackend now src (some r)).appended = none := by
  simp [AppJs.sendToBackend, AppFixed.sendToBackend, h]

/-- C3 (witness): the escaped body surfaced at a concrete 500 response. -/
theorem c3_witness :
    (AppJs.sendToBackend "p" (some { ok := false, status := 500, text := "Internal Server Error" })).resultHtml
      = AppJs.serverErrorHtml "Internal Server Error"
    ∧ (AppJs.sendToBackend "p" (some { ok := false, status := 500, text := "Internal Server Error" })).attemptedJsonParse = false
    ∧ (AppJs.sendToBackend "p" (some { ok := false, status := 500, text := "Internal Server Error" })).appended = none
    ∧ (AppFixed.sendToBackend "t" "p" (some { ok := false, status := 500, text := "Internal Server Error" })).resultHtml
        = AppFixed.serverErrorHtml 500 "Internal Server Error"
    ∧ (AppFixed.sendToBackend "t" "p" (some { ok := false, status := 500, text := "Internal Server Error" })).attemptedJsonParse = false
    ∧ (AppFixed.sendToBackend "t" "p" (some { ok := false, status := 500, text := "Internal Server Error" })).appended = none :=
  c3_non2xx_text { ok := false, status := 500, text := "Internal Server Error" } rfl "t" "p"

/-- C4 (counterexample): `appendRecent` of `app.js` interpolates the label
into `d.innerHTML` with no escaping: a label containing `<` puts a raw
markup-opening character into the document (one more `<` than the same
template with a plain label), while `escapeHtml` would have rewritten it. -/
theorem c4_counterexample :
    countChar '<' (AppJs.recentDivHtml "<i>" 87 "u")
      = countChar '<' (AppJs.recentDivHtml "x" 87 "u") + 1
    ∧ escapeHtml "<i>" ≠ "<i>" := by
  exact ⟨by decide, by decide⟩

/-- C4 (amended): only `app-fixed.js` escapes every interpolated string: in
each of its templates the number of markup-opening characters is independent
of the interpolated inputs, and `escapeHtml` output never contains a raw `<`.
In `app.js` and the first `common.js` script the label is interpolated
unescaped (see the counterexample). -/
theorem c4_escaped_fixed :
    (∀ lbl cf tm : String, countChar '<' (AppFixed.resultHtml lbl cf tm)
        = countChar '<' (AppFixed.resultHtml "" "" ""))
    ∧ (∀ item : AppFixed.RecentItem, countChar '<' (AppFixed.infoHtml item)
        = countChar '<' (AppFixed.infoHtml ⟨"", item.confidence, ""⟩))
    ∧ (∀ st text, countChar '<' (AppFixed.serverErrorHtml st text)
        = countChar '<' (AppFixed.serverErrorHtml st ""))
    ∧ (∀ e, countChar '<' (AppFixed.errorSpanHtml e)
        = countChar '<' (AppFixed.errorSpanHtml ""))
    ∧ (∀ s, countChar '<' (escapeHtml s) = 0) := by
  refine ⟨?_, ?_, ?_, ?_, countChar_lt_escapeHtml⟩
  · intro lbl cf tm
    simp only [AppFixed.resultHtml, countChar_append, countChar_lt_escapeHtml]
  · intro item
    simp only [AppFixed.infoHtml, countChar_append, countChar_lt_escapeHtml]
  · intro st text
    simp only [AppFixed.serverErrorHtml, countChar_append, countChar_lt_escapeHtml]
  · intro e
    simp only [AppFixed.errorSpanHtml, countChar_append, countChar_lt_escapeHtml]

/-- C5 (counterexample): `app.js` consults only the `prediction` and
`processing_time_ms` keys: a response carrying the alternates `label` and
`processing_time` renders "UNKNOWN" and "N/A" instead of accepting them. -/
theorem c5_counterexample :
    AppJs.label { label := some "real" } = "UNKNOWN"
    ∧ AppJs.time { processing_time := some 42 } = "N/A"
    ∧ ("UNKNOWN" : String) ≠ "REAL" := by
  exact ⟨by decide, rfl, by decide⟩

/-- C5 (amended): `app-fixed.js` performs the dual-key normalization: it
takes `prediction`, else `label`, else "unknown", and `processing_time_ms`,
else `processing_time`, else "N/A". -/
theorem c5_normalization (result : DetectJson) :
    (result.prediction = none → result.label = none → AppFixed.label result = "unknown")
    ∧ (∀ p, result.prediction = some p → p ≠ "" → AppFixed.label result = p)
    ∧ (∀ l, result.prediction = none → result.label = some l → l ≠ "" →
        AppFixed.label result = l)
    ∧ (result.processing_time_ms = none → result.processing_time = none →
        AppFixed.timeMs result = "N/A")
    ∧ (∀ t, result.processing_time_ms = some t → AppFixed.timeMs result = toString t)
    ∧ (∀ t, result.processing_time_ms = none → result.processing_time = some t →
        AppFixed.timeMs result = toString t) := by
  refine ⟨?_, ?_, ?_, ?_, ?_, ?_⟩
  · intro hp hl
    simp [AppFixed.label, jsOrStr, hp, hl]
  · intro p hp hne
    simp [AppFixed.label, jsOrStr, hp, hne]
  · intro l hp hl hne
    simp [AppFixed.label, jsOrStr, hp, hl, hne]
  · intro hms ht
    simp [AppFixed.timeMs, hms, ht]
  · intro t hms
    simp [AppFixed.timeMs, hms]
  · intro t hms ht
    simp [AppFixed.timeMs, hms, ht]

/-- C5 (witness): the alternate keys accepted at a concrete response. -/
theorem c5_witness :
    AppFixed.label { label := some "real", processing_time := some 42 } = "real"
    ∧ AppFixed.timeMs { label := some "real", processing_time := some 42 }
        = toString (42 : ℤ) :=
  ⟨(c5_normalization { label := some "real", processing_time := some 42 }).2.2.1
      "real" rfl rfl (by decide),
   (c5_normalization { label := some "real", processing_time := some 42 }).2.2.2.2.2
      42 rfl rfl⟩

/-- C6 (counterexample): `sendToBackend` of `app.js` never looks at an
`error` field: on a 2xx JSON body that is only `\x7b error: "boom" \x7d` it
renders the normal result ("UNKNOWN", 0%, "N/A") and still hands an entry to
`appendRecent`. -/
theorem c6_counterexample :
    (AppJs.sendToBackend "p" (some { ok := true, status := 200, text := "", json := some { error := some "boom" } })).appended.isSome = true
    ∧ (AppJs.sendToBackend "p" (some { ok := true, status := 200, text := "", json := some { error := some "boom" } })).resultHtml
        = AppJs.resultHtml "UNKNOWN" 0 "N/A" := by
  have h : AppJs.conf { error := some "boom" } = 0 := by
    simp [AppJs.conf, jsOrNum, jsRound]
    norm_num [Int.floor_eq_iff]
  constructor
  · rfl
  · show AppJs.resultHtml (AppJs.label { error := some "boom" })
        (AppJs.conf { error := some "boom" }) (AppJs.time { error := some "boom" })
      = AppJs.resultHtml "UNKNOWN" 0 "N/A"
    rw [h, show AppJs.label { error := some "boom" } = "UNKNOWN" by decide,
      show AppJs.time { error := some "boom" } = "N/A" from rfl]

/-- C6 (amended): in `app-fixed.js`, a 2xx response whose JSON body carries a
truthy `error` field surfaces that message escaped and reaches neither the
normal render nor `appendRecent`; `app.js` has no such check (see the
counterexample). -/
theorem c6_error_field (r : HttpResp) (result : DetectJson) (e : String)
    (hok : r.ok = true) (hjson : r.json = some result) (herr : result.error = some e)
    (hne : e ≠ "") (now src : String) :
    (AppFixed.sendToBackend now src (some r)).resultHtml = AppFixed.errorSpanHtml e
    ∧ (AppFixed.sendToBackend now src (some r)).appended = none := by
  simp [AppFixed.sendToBackend, hok, hjson, herr, truthyStr, hne, jsShowStr]

/-- C6 (witness): the escaped error span surfaced at a concrete response. -/
theorem c6_witness :
    (AppFixed.sendToBackend "t" "p" (some { ok := true, status := 200, text := "", json := some { error := some "boom" } })).resultHtml
      = AppFixed.errorSpanHtml "boom"
    ∧ (AppFixed.sendToBackend "t" "p" (some { ok := true, status := 200, text := "", json := some { error := some "boom" } })).appended = none :=
  c6_error_field _ _ "boom" rfl rfl rfl (by decide) "t" "p"

/-- C7: in both cited rewrites the camera-start handler catches a denied
`getUserMedia`, shows exactly one alert, and leaves `startBtn` untouched
(in the first `common.js` script the whole state is untouched); the button
is disabled only when a stream was actually acquired. -/
theorem c7_camera_denied (st : UIState) (g : Option Nat) :
    ((AppJs.startCamera none st).1.startDisabled = st.startDisabled)
    ∧ ((AppJs.startCamera none st).2 = 1)
    ∧ ((Common.startCamera none st).1 = st)
    ∧ ((Common.startCamera none st).2 = 1)
    ∧ ((AppJs.startCamera g st).1.startDisabled = true →
        st.startDisabled = true ∨ g.isSome = true)
    ∧ (∀ s, (AppJs.startCamera (some s) st).2 = 0
        ∧ (AppJs.startCamera (some s) st).1.startDisabled = true
        ∧ (Common.startCamera (some s) st).2 = 0
        ∧ (Common.startCamera (some s) st).1.startDisabled = true) := by
  refine ⟨rfl, rfl, rfl, rfl, ?_, fun s => ⟨rfl, rfl, rfl, rfl⟩⟩
  cases g with
  | none => exact fun h => Or.inl h
  | some s => exact fun _ => Or.inr rfl

/-- C7 (witness): the disabled-only-on-success implication at a granted
stream and an initially enabled button. -/
theorem c7_witness :
    (⟨none, false, ""⟩ : UIState).startDisabled = true ∨ (some 0 : Option Nat).isSome = true :=
  (c7_camera_denied ⟨none, false, ""⟩ (some 0)).2.2.2.2.1 rfl

/-- C8 (counterexample): the snap handler of the first `common.js` script has
no stream guard: with `video.srcObject` unset it still captures the (blank)
canvas, posts a detection request, and writes "Analyzing...", never
"Start the camera first.". -/
theorem c8_counterexample :
    (Common.snapClick ⟨none, false, ""⟩).2.requestSent = true
    ∧ (Common.snapClick ⟨none, false, ""⟩).2.captured = true
    ∧ (Common.snapClick ⟨none, false, ""⟩).1.resultText = "Analyzing..." :=
  ⟨rfl, rfl, rfl⟩

/-- C8 (amended): in `app.js` (and `app-fixed.js`, which has the same guard)
a snap with no active stream renders "Start the camera first.", captures no
frame and sends no request; the first `common.js` script lacks the guard
(see the counterexample). -/
theorem c8_snap_guard (st : UIState) (h : st.srcObject = none) :
    (AppJs.snapClick st).1.resultText = "Start the camera first."
    ∧ (AppJs.snapClick st).2.captured = false
    ∧ (AppJs.snapClick st).2.requestSent = false := by
  simp [AppJs.snapClick, h]

/-- C8 (witness): the guard at a concrete streamless state. -/
theorem c8_witness :
    (AppJs.snapClick ⟨none, true, "x"⟩).1.resultText = "Start the camera first."
    ∧ (AppJs.snapClick ⟨none, true, "x"⟩).2.captured = false
    ∧ (AppJs.snapClick ⟨none, true, "x"⟩).2.requestSent = false :=
  c8_snap_guard ⟨none, true, "x"⟩ rfl

/-- C9: page load issues exactly one ping request whatever the ping's
outcome (no retry path exists); a parsed response displays the model name and
loaded flag, and any failure displays the fixed unreachable string. -/
theorem c9_ping_once (r : Option PingJson) (name : String) (b : Bool) (hname : name ≠ "") :
    ((Common.loadRequests r).count Req.ping = 1)
    ∧ (Common.pingModel none = "backend unreachable")
    ∧ (Common.pingModel (some ⟨some name, some b⟩)
        = name ++ " (loaded=" ++ (if b then "true" else "false") ++ ")") := by
  refine ⟨?_, rfl, ?_⟩
  · exact (by decide : List.count Req.ping [Req.ping, Req.logs 10] = 1)
  · cases b <;> simp [Common.pingModel, jsOrStr, hname, jsShowBool]

/-- C9 (witness): the ping display at a concrete loaded model. -/
theorem c9_witness :
    ((Common.loadRequests none).count Req.ping = 1)
    ∧ (Common.pingModel none = "backend unreachable")
    ∧ (Common.pingModel (some ⟨some "resnet", some true⟩)
        = "resnet" ++ " (loaded=" ++ (if true then "true" else "false") ++ ")") :=
  c9_ping_once none "resnet" true (by decide)

/-- C10 (counterexample): `autoDetect` of the first `common.js` script
appends to the recent list even on a failure path: a non-2xx response whose
body happens to parse as JSON with a `prediction` still reaches
`appendRecent`. -/
theorem c10_counterexample :
    (Common.autoDetect (some { ok := false, status := 500, text := "x", json := some { prediction := some "real" } })).appended.isSome = true :=
  rfl

/-- C10 (amended): in `app-fixed.js` every failure path — rejected fetch,
non-2xx status, unparsable body, or truthy `error` field — leaves the recent
list untouched, and an append happens only on the fully successful path;
`app.js` and the first `common.js` script also append on some of those
failure paths (see the counterexample). -/
theorem c10_append_on_success (now src : String) :
    ((AppFixed.sendToBackend now src none).appended = none)
    ∧ (∀ r : HttpResp, r.ok = false → (AppFixed.sendToBackend now src (some r)).appended = none)
    ∧ (∀ r : HttpResp, r.json = none → (AppFixed.sendToBackend now src (some r)).appended = none)
    ∧ (∀ (r : HttpResp) (result : DetectJson) (e : String), r.json = some result →
        result.error = some e → e ≠ "" →
        (AppFixed.sendToBackend now src (some r)).appended = none)
    ∧ (∀ r : HttpResp, (AppFixed.sendToBackend now src (some r)).appended.isSome = true →
        r.ok = true ∧ ∃ result, r.json = some result ∧ truthyStr result.error = false) := by
  refine ⟨rfl, ?_, ?_, ?_, ?_⟩
  · intro r h
    simp [AppFixed.sendToBackend, h]
  · intro r h
    cases hok : r.ok with
    | false => simp [AppFixed.sendToBackend, hok]
    | true => simp [AppFixed.sendToBackend, hok, h]
  · intro r result e hjson herr hne
    cases hok : r.ok with
    | false => simp [AppFixed.sendToBackend, hok]
    | true => simp [AppFixed.sendToBackend, hok, hjson, herr, truthyStr, hne]
  · intro r h
    cases hok : r.ok with
    | false => simp [AppFixed.sendToBackend, hok] at h
    | true =>
      cases hjson : r.json with
      | none => simp [AppFixed.sendToBackend, hok, hjson] at h
      | some result =>
        cases herr : truthyStr result.error with
        | false => exact ⟨rfl, result, rfl, herr⟩
        | true => simp [AppFixed.sendToBackend, hok, hjson, herr] at h

/-- C10 (witness): no append at a concrete error-field response. -/
theorem c10_witness :
    (AppFixed.sendToBackend "t" "p" (some { ok := true, status := 200, text := "", json := some { error := some "bad" } })).appended = none :=
  (c10_append_on_success "t" "p").2.2.2.1 _ _ "bad" rfl rfl (by decide)
